import Mathlib

/-!
Verification development for the weather bot's rate limiter and security
manager (`src/rate_limiter.py`, `src/security.py`) and the message handlers
of `src/bot.py` that call them.

Modelling conventions:
* `datetime.now()` timestamps are integers (`Int`); durations live in the
  same unit, so a caller who thinks in seconds passes `60` for one minute,
  `3600 * window_hours` for the rate-limit window.  Nothing below depends on
  the unit.
* The Python dicts `user_requests`, `flood_tracker`, `spam_tracker` are
  total functions `Nat → List Int`; a user that is absent from the dict is
  represented by the empty list, which matches the code: every method that
  distinguishes the two cases (`if user_id not in ...`) treats an absent
  user exactly like one with an empty history.
* The Python `set` of blocked users is a characteristic function
  `Nat → Bool`.
* Methods are state-passing functions: they take the current state and
  return their result together with the new state.  Methods that never
  assign into the dict return the state unchanged.
* Strings are `List Char`; `\s` of Python's `re` module is modelled by the
  six ASCII whitespace characters (the development only evaluates ASCII
  text, where the two notions agree).
-/

namespace WeatherBot

/-- Point update of a function-backed dictionary. -/
def upd {α : Type} (f : Nat → α) (k : Nat) (v : α) : Nat → α :=
  fun k' => if k' = k then v else f k'

/-! ## rate_limiter.py -/

/-- The `user_requests` dict of `RateLimiter`. -/
abbrev RLState := Nat → List Int

/-- The window filter used at `rate_limiter.py` lines 26 and 45 and at
`security.py` lines 65 and 88: keep the events strictly newer than
`now - window`. -/
def inWindow (window now : Int) (l : List Int) : List Int :=
  l.filter (fun t => decide (now - window < t))

/-- `RateLimiter.check_rate_limit` (`rate_limiter.py` lines 14-34):
prune the stored history to the window, deny when the pruned length has
reached `max_requests`, otherwise append `now` and admit. -/
def check_rate_limit (maxRequests : Nat) (window now : Int)
    (st : RLState) (uid : Nat) : Bool × RLState :=
  let hist := inWindow window now (st uid)
  if maxRequests ≤ hist.length then
    (false, upd st uid hist)
  else
    (true, upd st uid (hist ++ [now]))

/-- `RateLimiter.get_remaining_requests` (`rate_limiter.py` lines 36-47):
`max(0, max_requests - len(recent))`; the stored dict is not written
(line 45 builds a fresh list and never assigns it back). -/
def get_remaining_requests (maxRequests : Nat) (window now : Int)
    (st : RLState) (uid : Nat) : Int × RLState :=
  (max 0 ((maxRequests : Int) - (inWindow window now (st uid)).length), st)

/-- `RateLimiter.get_reset_time` (`rate_limiter.py` lines 49-55):
`min(history) + window` for a nonempty history, `now` otherwise; the dict is
not written. -/
def get_reset_time (window now : Int) (st : RLState) (uid : Nat) :
    Int × RLState :=
  match st uid with
  | [] => (now, st)
  | t :: ts => (ts.foldl min t + window, st)

/-! ## security.py: state and the window-counter checks -/

/-- The mutable state of `SecurityManager`. -/
structure SecState where
  blocked : Nat → Bool
  flood : Nat → List Int
  spam : Nat → List Int

/-- `security.py` line 19. -/
def max_messages_per_minute : Nat := 10

/-- `security.py` line 20. -/
def max_identical_messages : Nat := 3

/-- `security.py` line 21. -/
def spam_window_minutes : Nat := 5

/-- `SecurityManager.is_user_blocked` (`security.py` lines 39-41). -/
def is_user_blocked (st : SecState) (uid : Nat) : Bool :=
  st.blocked uid

/-- `SecurityManager.block_user` (`security.py` lines 43-46). -/
def block_user (st : SecState) (uid : Nat) : SecState :=
  { st with blocked := upd st.blocked uid true }

/-- `SecurityManager.unblock_user` (`security.py` lines 48-51). -/
def unblock_user (st : SecState) (uid : Nat) : SecState :=
  { st with blocked := upd st.blocked uid false }

/-- `SecurityManager.check_flood_protection` (`security.py` lines 53-74):
prune the flood history to the one-minute window, deny when the pruned
length has reached `max_messages_per_minute`, otherwise append `now`. -/
def check_flood_protection (now : Int) (st : SecState) (uid : Nat) :
    Bool × SecState :=
  let msgs := inWindow 60 now (st.flood uid)
  if max_messages_per_minute ≤ msgs.length then
    (false, { st with flood := upd st.flood uid msgs })
  else
    (true, { st with flood := upd st.flood uid (msgs ++ [now]) })

/-- A sequence of `check_flood_protection` calls for one user at the given
timestamps, collecting the decisions in order. -/
def flood_run (uid : Nat) : SecState → List Int → List Bool × SecState
  | st, [] => ([], st)
  | st, t :: ts =>
    let r := check_flood_protection t st uid
    let rest := flood_run uid r.2 ts
    (r.1 :: rest.1, rest.2)

/-- `SecurityManager.check_spam_detection` (`security.py` lines 76-99):
prune the spam history to the five-minute window; `identical_count` is
`sum(1 for _ in user_messages)` (line 91), which never inspects
`message_text`; deny when it has reached `max_identical_messages`,
otherwise append `now`. -/
def check_spam_detection (now : Int) (st : SecState) (uid : Nat)
    (message_text : List Char) : Bool × SecState :=
  let _ := message_text
  let msgs := inWindow (60 * (spam_window_minutes : Int)) now (st.spam uid)
  let identical_count := (msgs.map fun _ => (1 : Nat)).sum
  if max_identical_messages ≤ identical_count then
    (false, { st with spam := upd st.spam uid msgs })
  else
    (true, { st with spam := upd st.spam uid (msgs ++ [now]) })

/-! ## security.py: malicious patterns, sanitising, validation

The nine regexes of `security.py` lines 24-34 are shallow-embedded as
matchers `List Char → Option Nat`: given the text starting at a candidate
position, a matcher returns the length of the (leftmost, Python-semantics)
match at that position, or `none`.  All literal parts are matched
case-insensitively (`re.IGNORECASE`, line 37); `.` never matches a newline;
`.*?` is lazy (shortest match first, growing on backtracking). -/

/-- Python `str`/`\s` whitespace, restricted to ASCII. -/
def isPySpace (c : Char) : Bool :=
  c = ' ' || c = '\t' || c = '\n' || c = '\r' || c = '\x0b' || c = '\x0c'

/-- ASCII lower-casing, the effect of `re.IGNORECASE` on the all-ASCII
literals of the patterns. -/
def lowerAscii (c : Char) : Char :=
  if 'A' ≤ c && c ≤ 'Z' then Char.ofNat (c.toNat + 32) else c

/-- Case-insensitive "the pattern literal `p` starts the text `s`". -/
def ciStarts : List Char → List Char → Bool
  | [], _ => true
  | _ :: _, [] => false
  | p :: ps, c :: cs => decide (lowerAscii p = lowerAscii c) && ciStarts ps cs

/-- Lazy `.*?` followed by the literal `close`: the shortest number of
non-newline characters that reaches an occurrence of `close`, returning the
total consumed length including `close`; `none` when a newline or the end of
the text intervenes. -/
def scanLazyTo (close : List Char) : List Char → Option Nat
  | [] => if ciStarts close [] then some close.length else none
  | c :: rest =>
    if ciStarts close (c :: rest) then some close.length
    else if c = '\n' then none
    else (scanLazyTo close rest).map (· + 1)

/-- The body of `<script.*?>.*?</script>` after the `<script` literal:
lazily find a `>` (backtracking past a `>` whose continuation fails), then
lazily find `</script>`. -/
def scanScriptBody : List Char → Option Nat
  | [] => none
  | c :: rest =>
    if c = '\n' then none
    else if c = '>' then
      match scanLazyTo "</script>".toList rest with
      | some m => some (1 + m)
      | none => (scanScriptBody rest).map (· + 1)
    else (scanScriptBody rest).map (· + 1)

/-- Matcher for `<script.*?>.*?</script>` (`security.py` line 25). -/
def matchScriptPat (s : List Char) : Option Nat :=
  if ciStarts "<script".toList s then
    (scanScriptBody (s.drop 7)).map (· + 7)
  else none

/-- Matcher for a plain literal pattern (`javascript:`, `vbscript:`,
`security.py` lines 26-27). -/
def matchLitPat (lit : List Char) (s : List Char) : Option Nat :=
  if ciStarts lit s then some lit.length else none

/-- Matcher for `lit\s*=` (`onload\s*=` etc., `security.py` lines 28-30).
The greedy `\s*` consumes the maximal whitespace run; backtracking to a
shorter run can never succeed because the abandoned character is whitespace
and hence not `=`, so the maximal run is the only candidate. -/
def matchEventPat (lit : List Char) (s : List Char) : Option Nat :=
  if ciStarts lit s then
    let rest := s.drop lit.length
    let k := (rest.takeWhile isPySpace).length
    if (rest.drop k).head? = some '=' then some (lit.length + k + 1)
    else none
  else none

/-- Matcher for `lit.*?>` (`<iframe.*?>` etc., `security.py` lines 31-33). -/
def matchTagPat (lit : List Char) (s : List Char) : Option Nat :=
  if ciStarts lit s then
    (scanLazyTo ['>'] (s.drop lit.length)).map (· + lit.length)
  else none

/-- The nine compiled patterns of `security.py` lines 24-37, in source
order. -/
def compiled_patterns : List (List Char → Option Nat) :=
  [matchScriptPat,
   matchLitPat "javascript:".toList,
   matchLitPat "vbscript:".toList,
   matchEventPat "onload".toList,
   matchEventPat "onerror".toList,
   matchEventPat "onclick".toList,
   matchTagPat "<iframe".toList,
   matchTagPat "<object".toList,
   matchTagPat "<embed".toList]

/-- `pattern.sub('', s)` on fuel: scan left to right; at a match of length
`k + 1` drop the match and resume after it, otherwise emit the character.
The fuel only has to dominate the length of the text, which each step
shrinks. -/
def subAllFuel (m : List Char → Option Nat) : Nat → List Char → List Char
  | 0, s => s
  | _ + 1, [] => []
  | fuel + 1, c :: rest =>
    match m (c :: rest) with
    | some (k + 1) => subAllFuel m fuel (rest.drop k)
    | _ => c :: subAllFuel m fuel rest

/-- `pattern.sub('', s)`: remove every (non-overlapping, leftmost) match of
the pattern. -/
def subMatches (m : List Char → Option Nat) (s : List Char) : List Char :=
  subAllFuel m s.length s

/-- `pattern.search(s)`: does the pattern match at some position? -/
def reSearch (m : List Char → Option Nat) (s : List Char) : Bool :=
  s.tails.any (fun t => (m t).isSome)

/-- `re.sub(r'\s+', ' ', s)`: each maximal whitespace run becomes a single
space.  The flag records whether the previous character belonged to a run
whose space was already emitted. -/
def collapseWsAux : Bool → List Char → List Char
  | _, [] => []
  | prevWs, c :: rest =>
    if isPySpace c then
      if prevWs then collapseWsAux true rest
      else ' ' :: collapseWsAux true rest
    else c :: collapseWsAux false rest

/-- `re.sub(r'\s+', ' ', s)`. -/
def collapseWs (s : List Char) : List Char :=
  collapseWsAux false s

/-- Python `str.strip()`. -/
def stripWs (s : List Char) : List Char :=
  ((s.dropWhile isPySpace).reverse.dropWhile isPySpace).reverse

/-- The length cap of `sanitize_input` (`security.py` lines 114-117). -/
def truncate1000 (s : List Char) : List Char :=
  if 1000 < s.length then s.take 1000 ++ "...".toList else s

/-- Sequential removal of all nine patterns, in source order
(`security.py` lines 107-109). -/
def remove_malicious (s : List Char) : List Char :=
  compiled_patterns.foldl (fun acc m => subMatches m acc) s

/-- `SecurityManager.sanitize_input` (`security.py` lines 101-119). -/
def sanitize_input (text : List Char) : List Char :=
  if text = [] then []
  else truncate1000 (stripWs (collapseWs (remove_malicious text)))

/-- The character class `[a-zA-Z0-9\s\-\.,\(\)]` of `security.py`
line 136. -/
def isValidLocChar (c : Char) : Bool :=
  ('a' ≤ c && c ≤ 'z') || ('A' ≤ c && c ≤ 'Z') || ('0' ≤ c && c ≤ '9') ||
    isPySpace c || c = '-' || c = '.' || c = ',' || c = '(' || c = ')'

/-- Python's `$`: it matches at the end of the text or just before a final
newline. -/
def dollarOk (s : List Char) (j : Nat) : Bool :=
  j = s.length || (j + 1 = s.length && s.getD j ' ' = '\n')

/-- `valid_pattern.match(location)` for `^[a-zA-Z0-9\s\-\.,\(\)]+$`
(`security.py` lines 136-137): anchored at the start, some `j ≥ 1` class
characters, then `$`. -/
def anchoredClassMatch (s : List Char) : Bool :=
  (List.range (s.length + 1)).any
    (fun j => 1 ≤ j && (s.take j).all isValidLocChar && dollarOk s j)

/-- `SecurityManager.validate_location_input` (`security.py`
lines 121-140). -/
def validate_location_input (location : List Char) : Bool :=
  if location = [] || (stripWs location).length = 0 then false
  else if 100 < location.length then false
  else if compiled_patterns.any (fun m => reSearch m location) then false
  else if anchoredClassMatch location then true
  else false

/-- `SecurityManager.validate_coordinates` (`security.py` lines 142-152).
Python floats are modelled by rationals; the range checks are exact. -/
def validate_coordinates (latitude longitude : ℚ) : Bool :=
  decide (-90 ≤ latitude ∧ latitude ≤ 90) &&
    decide (-180 ≤ longitude ∧ longitude ≤ 180)

/-- The whitelist exactly as the specification words it — letters, digits,
spaces, hyphens, periods, commas, and parentheses, where a space is the
plain space character only.  This definition follows the spec's words, not
the code, and exists solely to compare the two: the code's class
`[a-zA-Z0-9\s\-\.,\(\)]` additionally accepts every other whitespace
character via `\s`. -/
def specLocationChar (c : Char) : Bool :=
  ('a' ≤ c && c ≤ 'z') || ('A' ≤ c && c ≤ 'Z') || ('0' ≤ c && c ≤ '9') ||
    c = ' ' || c = '-' || c = '.' || c = ',' || c = '(' || c = ')'

/-- `security.py` line 175. -/
def admin_actions : List (List Char) :=
  ["stats".toList, "users".toList, "admin_callback".toList]

/-- `SecurityManager.is_admin_user` (`security.py` lines 154-156). -/
def is_admin_user (adminId uid : Nat) : Bool :=
  uid == adminId

/-- `SecurityManager.check_user_permissions` (`security.py` lines 162-180):
blocked users are denied before the flood check runs (so their flood state
is untouched); then the flood check; then the admin-only gate. -/
def check_user_permissions (adminId : Nat) (now : Int) (st : SecState)
    (uid : Nat) (action : List Char) : Bool × SecState :=
  if is_user_blocked st uid then
    (false, st)
  else
    let r := check_flood_protection now st uid
    if !r.1 then
      (false, r.2)
    else if admin_actions.contains action && !is_admin_user adminId uid then
      (false, r.2)
    else
      (true, r.2)

/-! ## bot.py: the two message handlers -/

/-- The externally visible outcome of a handler run: which reply path the
code takes before (or instead of) fetching weather data. -/
inductive HandlerOutcome where
  | accessDenied
  | buttonDonate
  | buttonHelp
  | rateLimited
  | invalidFormat
  | invalidCoords
  | fetchWeather (query : List Char)
  | fetchWeatherAt
  deriving DecidableEq

/-- `WeatherBot.text_handler` (`bot.py` lines 278-312): strip the text,
check permissions, dispatch the two keyboard buttons, check the rate limit,
then sanitize and validate; the first failing gate replies and stops. -/
def text_handler (adminId maxRequests : Nat) (window now : Int)
    (sec : SecState) (rl : RLState) (uid : Nat) (raw : List Char) :
    HandlerOutcome × SecState × RLState :=
  let text := stripWs raw
  let p := check_user_permissions adminId now sec uid "text_message".toList
  if !p.1 then
    (.accessDenied, p.2, rl)
  else if text = "💝 Donate".toList then
    (.buttonDonate, p.2, rl)
  else if text = "ℹ️ Help".toList then
    (.buttonHelp, p.2, rl)
  else
    let r := check_rate_limit maxRequests window now rl uid
    if !r.1 then
      (.rateLimited, p.2, r.2)
    else
      let sanitized := sanitize_input text
      if !validate_location_input sanitized then
        (.invalidFormat, p.2, r.2)
      else
        (.fetchWeather sanitized, p.2, r.2)

/-- `WeatherBot.location_handler` (`bot.py` lines 210-234): check
permissions, validate the coordinates, then check the rate limit; the first
failing gate replies and stops. -/
def location_handler (adminId maxRequests : Nat) (window now : Int)
    (sec : SecState) (rl : RLState) (uid : Nat)
    (latitude longitude : ℚ) : HandlerOutcome × SecState × RLState :=
  let p := check_user_permissions adminId now sec uid
    "location_message".toList
  if !p.1 then
    (.accessDenied, p.2, rl)
  else if !validate_coordinates latitude longitude then
    (.invalidCoords, p.2, rl)
  else
    let r := check_rate_limit maxRequests window now rl uid
    if !r.1 then
      (.rateLimited, p.2, r.2)
    else
      (.fetchWeatherAt, p.2, r.2)

/-! ## Basic lemmas about the window filter and point updates -/

theorem upd_self {α : Type} (f : Nat → α) (k : Nat) (v : α) :
    upd f k v k = v := by
  simp [upd]

theorem mem_inWindow (window now : Int) (l : List Int) (t : Int) :
    t ∈ inWindow window now l ↔ t ∈ l ∧ now - window < t := by
  simp [inWindow]

theorem inWindow_idem (window now : Int) (l : List Int) :
    inWindow window now (inWindow window now l) = inWindow window now l := by
  simp [inWindow, List.filter_filter]

theorem sum_map_one (l : List Int) :
    (l.map fun _ => (1 : Nat)).sum = l.length := by
  induction l with
  | nil => rfl
  | cons a l ih => simp [ih, Nat.add_comm]

/-- The anchored whitelist regex `^[a-zA-Z0-9\s\-\.,\(\)]+$` under
`re.match` accepts exactly the nonempty texts made of class characters:
the `$`-before-final-newline case adds nothing because `\n` is itself in
the class. -/
theorem anchoredClassMatch_iff (s : List Char) :
    anchoredClassMatch s = true ↔
      s ≠ [] ∧ ∀ c ∈ s, isValidLocChar c = true := by
  constructor
  · intro h
    rw [anchoredClassMatch, List.any_eq_true] at h
    obtain ⟨j, hjmem, hcond⟩ := h
    simp only [Bool.and_eq_true, decide_eq_true_eq, List.all_eq_true] at hcond
    obtain ⟨⟨hj1, hall⟩, hdollar⟩ := hcond
    rw [dollarOk, Bool.or_eq_true, Bool.and_eq_true] at hdollar
    simp only [decide_eq_true_eq] at hdollar
    rcases hdollar with hEnd | ⟨hlen, hnl⟩
    · refine ⟨?_, ?_⟩
      · intro hnil
        rw [hnil] at hEnd
        simp at hEnd
        omega
      · intro c hc
        apply hall
        rw [hEnd, List.take_length]
        exact hc
    · have hjlt : j < s.length := by omega
      have hdropone : s.drop j = ['\n'] := by
        rw [List.drop_eq_getElem_cons hjlt]
        have h2 : s.drop (j + 1) = [] := by
          apply List.drop_eq_nil_of_le
          omega
        rw [h2]
        have h3 : s[j] = '\n' := by
          rw [← List.getD_eq_getElem s ' ' hjlt]
          exact hnl
        rw [h3]
      refine ⟨?_, ?_⟩
      · intro hnil
        rw [hnil] at hjlt
        simp at hjlt
      · intro c hc
        rw [← List.take_append_drop j s, List.mem_append, hdropone] at hc
        rcases hc with hc1 | hc2
        · exact hall c hc1
        · rw [List.mem_singleton] at hc2
          rw [hc2]
          decide
  · rintro ⟨hne, hall⟩
    rw [anchoredClassMatch, List.any_eq_true]
    refine ⟨s.length, ?_, ?_⟩
    · rw [List.mem_range]
      omega
    · have hlen1 : s.length ≠ 0 := by
        intro h0
        exact hne (List.eq_nil_of_length_eq_zero h0)
      simp only [Bool.and_eq_true, decide_eq_true_eq, List.all_eq_true]
      refine ⟨⟨by omega, ?_⟩, ?_⟩
      · intro c hc
        exact hall c (by rw [List.take_length] at hc; exact hc)
      · rw [dollarOk]
        simp

/-! ## Claim theorems -/

/-- C1: when the in-window count for a user has already reached
`max_requests`, `check_rate_limit` denies, stores only the pruned history
(no new event is appended), and `get_remaining_requests` returns the same
value before and after the denied call. -/
theorem c1_denial_not_counted (maxRequests : Nat) (window now : Int)
    (st : RLState) (uid : Nat)
    (h : maxRequests ≤ (inWindow window now (st uid)).length) :
    (check_rate_limit maxRequests window now st uid).1 = false ∧
    (check_rate_limit maxRequests window now st uid).2 uid
      = inWindow window now (st uid) ∧
    (get_remaining_requests maxRequests window now
        (check_rate_limit maxRequests window now st uid).2 uid).1
      = (get_remaining_requests maxRequests window now st uid).1 := by
  refine ⟨?_, ?_, ?_⟩ <;>
    simp [check_rate_limit, get_remaining_requests, h, upd_self, inWindow_idem]

/-- Witness for C1: with `max_requests = 2`, a user holding two in-window
events is denied, the stored history is unchanged, and the remaining count
is unchanged. -/
theorem c1_denial_not_counted_witness :
    (check_rate_limit 2 10 100 (upd (fun _ => []) 1 [95, 96]) 1).1 = false ∧
    (check_rate_limit 2 10 100 (upd (fun _ => []) 1 [95, 96]) 1).2 1
      = inWindow 10 100 ((upd (fun _ => []) 1 [95, 96]) 1) ∧
    (get_remaining_requests 2 10 100
        (check_rate_limit 2 10 100 (upd (fun _ => []) 1 [95, 96]) 1).2 1).1
      = (get_remaining_requests 2 10 100 (upd (fun _ => []) 1 [95, 96]) 1).1 :=
  c1_denial_not_counted 2 10 100 (upd (fun _ => []) 1 [95, 96]) 1 (by decide)

/-- C2 counterexample: a user with ten in-window flood events is denied by
`check_flood_protection`, and the stored flood history afterwards is still
the ten old events — the current timestamp was NOT appended, contradicting
the claim that the flood check always records an event even on denial. -/
theorem c2_counterexample :
    (check_flood_protection 0
      ⟨fun _ => false, upd (fun _ => []) 1 (List.replicate 10 0), fun _ => []⟩
      1).1 = false ∧
    (check_flood_protection 0
      ⟨fun _ => false, upd (fun _ => []) 1 (List.replicate 10 0), fun _ => []⟩
      1).2.flood 1 = List.replicate 10 0 := by
  constructor <;> rfl

/-- C2 amended: `check_flood_protection` appends the current timestamp only
when it returns `true`; on a flood denial the stored history is merely
pruned to the window and no event is recorded. -/
theorem c2_flood_records_only_on_success (now : Int) (st : SecState)
    (uid : Nat) :
    (check_flood_protection now st uid).2.flood uid =
      (if (check_flood_protection now st uid).1 = true then
        inWindow 60 now (st.flood uid) ++ [now]
      else inWindow 60 now (st.flood uid)) := by
  by_cases hc :
      max_messages_per_minute ≤ (inWindow 60 now (st.flood uid)).length <;>
    simp [check_flood_protection, hc, upd_self]

/-- C4 counterexample: with `window = 10` at `now = 100`, a stored event at
time `0` is outside the window (`0 ≤ now - window`), yet immediately after
`get_remaining_requests` and `get_reset_time` it is still stored — the
reads do not prune the event sequence, contradicting the claim that the
invariant holds after any read. -/
theorem c4_counterexample :
    (get_remaining_requests 20 10 100 (upd (fun _ => []) 1 [0]) 1).2 1
      = [0] ∧
    (get_reset_time 10 100 (upd (fun _ => []) 1 [0]) 1).2 1 = [0] ∧
    (0 : Int) ≤ 100 - 10 := by
  refine ⟨rfl, rfl, by decide⟩

/-- C4 amended: immediately after `check_rate_limit`, the stored sequence
of the user is chronologically sorted and contains only events strictly
inside the window (assuming a positive window, a sorted prior history, and
a clock that never runs backwards); `get_remaining_requests` and
`get_reset_time`, by contrast, leave the stored state entirely unchanged,
so stale entries survive those reads. -/
theorem c4_read_invariants (maxRequests : Nat) (window now : Int)
    (st : RLState) (uid : Nat) (hW : 0 < window)
    (hsort : (st uid).Sorted (· ≤ ·)) (hle : ∀ t ∈ st uid, t ≤ now) :
    ((check_rate_limit maxRequests window now st uid).2 uid).Sorted
        (· ≤ ·) ∧
    (∀ t ∈ (check_rate_limit maxRequests window now st uid).2 uid,
      now - window < t) ∧
    (get_remaining_requests maxRequests window now st uid).2 = st ∧
    (get_reset_time window now st uid).2 = st := by
  have hfs : (inWindow window now (st uid)).Sorted (· ≤ ·) :=
    List.Pairwise.filter _ hsort
  have hfm : ∀ t ∈ inWindow window now (st uid), now - window < t := by
    intro t ht
    exact ((mem_inWindow window now (st uid) t).1 ht).2
  have hreset : (get_reset_time window now st uid).2 = st := by
    cases h : st uid <;> simp [get_reset_time, h]
  by_cases hc : maxRequests ≤ (inWindow window now (st uid)).length
  · refine ⟨?_, ?_, rfl, hreset⟩ <;>
      simp only [check_rate_limit, if_pos hc, upd_self]
    · exact hfs
    · exact hfm
  · refine ⟨?_, ?_, rfl, hreset⟩ <;>
      simp only [check_rate_limit, if_neg hc, upd_self]
    · rw [List.Sorted, List.pairwise_append]
      refine ⟨hfs, List.pairwise_singleton _ _, ?_⟩
      intro a ha b hb
      rw [List.mem_singleton] at hb
      rw [hb]
      exact hle a ((mem_inWindow window now (st uid) a).1 ha).1
    · intro t ht
      rcases List.mem_append.1 ht with h1 | h2
      · exact hfm t h1
      · rw [List.mem_singleton] at h2
        rw [h2]
        exact sub_lt_self now hW

/-- Witness for the amended C4 at a concrete sorted two-event history. -/
theorem c4_read_invariants_witness :
    (0 : Int) < 10 ∧
    ((upd (fun _ => []) 1 [95, 96]) 1).Sorted (· ≤ ·) ∧
    (∀ t ∈ (upd (fun _ => ([] : List Int)) 1 [95, 96]) 1, t ≤ 100) ∧
    (((check_rate_limit 20 10 100 (upd (fun _ => []) 1 [95, 96]) 1).2
        1).Sorted (· ≤ ·) ∧
      (∀ t ∈ (check_rate_limit 20 10 100 (upd (fun _ => []) 1 [95, 96])
          1).2 1, 100 - 10 < t) ∧
      (get_remaining_requests 20 10 100 (upd (fun _ => []) 1 [95, 96]) 1).2
        = upd (fun _ => []) 1 [95, 96] ∧
      (get_reset_time 10 100 (upd (fun _ => []) 1 [95, 96]) 1).2
        = upd (fun _ => []) 1 [95, 96]) :=
  ⟨by decide, by decide, by decide,
    c4_read_invariants 20 10 100 (upd (fun _ => []) 1 [95, 96]) 1
      (by decide) (by decide) (by decide)⟩

/-- C5: an identity in the blocked set is denied by
`check_user_permissions` for every action and every flood state, and the
whole security state — the flood tracker included — is left unchanged;
after `unblock_user`, `check_user_permissions` returns the same decision
and produces the same flood history for that identity as it does for a
never-blocked identity with the same flood-window state. -/
theorem c5_block_overrides_window_state (adminId : Nat) (now : Int)
    (st st' : SecState) (uid : Nat) (action : List Char) :
    (st.blocked uid = true →
      check_user_permissions adminId now st uid action = (false, st)) ∧
    (st'.blocked uid = false → st'.flood uid = st.flood uid →
      (check_user_permissions adminId now (unblock_user st uid) uid
            action).1
          = (check_user_permissions adminId now st' uid action).1 ∧
      (check_user_permissions adminId now (unblock_user st uid) uid
            action).2.flood uid
          = (check_user_permissions adminId now st' uid action).2.flood
            uid) := by
  constructor
  · intro hb
    simp [check_user_permissions, is_user_blocked, hb]
  · intro hb' hf
    by_cases hc :
        max_messages_per_minute ≤ (inWindow 60 now (st.flood uid)).length <;>
      constructor <;>
      simp [check_user_permissions, check_flood_protection, is_user_blocked,
        unblock_user, upd_self, hb', hf, hc] <;>
      split <;> simp [upd_self]

/-- Witness for C5: identity `1` blocked in one state, never blocked in a
second state with the same (empty) flood history. -/
theorem c5_block_overrides_window_state_witness :
    (check_user_permissions 99 0
        ⟨upd (fun _ => false) 1 true, fun _ => [], fun _ => []⟩ 1
        "text_message".toList
      = (false,
        ⟨upd (fun _ => false) 1 true, fun _ => [], fun _ => []⟩)) ∧
    ((check_user_permissions 99 0
          (unblock_user
            ⟨upd (fun _ => false) 1 true, fun _ => [], fun _ => []⟩ 1) 1
          "text_message".toList).1
        = (check_user_permissions 99 0
          ⟨fun _ => false, fun _ => [], fun _ => []⟩ 1
          "text_message".toList).1 ∧
      (check_user_permissions 99 0
          (unblock_user
            ⟨upd (fun _ => false) 1 true, fun _ => [], fun _ => []⟩ 1) 1
          "text_message".toList).2.flood 1
        = (check_user_permissions 99 0
          ⟨fun _ => false, fun _ => [], fun _ => []⟩ 1
          "text_message".toList).2.flood 1) :=
  ⟨(c5_block_overrides_window_state 99 0
      ⟨upd (fun _ => false) 1 true, fun _ => [], fun _ => []⟩
      ⟨fun _ => false, fun _ => [], fun _ => []⟩ 1
      "text_message".toList).1 (by decide),
    (c5_block_overrides_window_state 99 0
      ⟨upd (fun _ => false) 1 true, fun _ => [], fun _ => []⟩
      ⟨fun _ => false, fun _ => [], fun _ => []⟩ 1
      "text_message".toList).2 (by decide) (by decide)⟩

/-- C6: `check_spam_detection` never inspects the message text — for any
two texts the returned decision and the entire resulting state coincide —
and its decision is exactly "fewer than 3 timestamps in the five-minute
window", a second flood-style counter. -/
theorem c6_spam_ignores_content (now : Int) (st : SecState) (uid : Nat)
    (t1 t2 : List Char) :
    check_spam_detection now st uid t1 = check_spam_detection now st uid t2 ∧
    (check_spam_detection now st uid t1).1
      = decide
        ((inWindow (60 * (spam_window_minutes : Int)) now
          (st.spam uid)).length < 3) := by
  refine ⟨rfl, ?_⟩
  simp only [check_spam_detection, sum_map_one]
  by_cases hc : max_identical_messages ≤
      (inWindow (60 * (spam_window_minutes : Int)) now
        (st.spam uid)).length
  · rw [if_pos hc]
    have h3 : ¬ (inWindow (60 * (spam_window_minutes : Int)) now
        (st.spam uid)).length < 3 := by
      unfold max_identical_messages at hc
      omega
    simp [h3]
  · rw [if_neg hc]
    have h3 : (inWindow (60 * (spam_window_minutes : Int)) now
        (st.spam uid)).length < 3 := by
      unfold max_identical_messages at hc
      omega
    simp [h3]

/-- A run of flood checks is fully admitted as long as the starting history
plus the run still fits under `max_messages_per_minute` and every involved
timestamp lies inside every call's one-minute window; the run appends its
timestamps in order. -/
theorem flood_run_all_admitted (uid : Nat) :
    ∀ (ts : List Int) (st : SecState),
      (st.flood uid).length + ts.length ≤ max_messages_per_minute →
      (∀ x ∈ st.flood uid, ∀ t ∈ ts, t - 60 < x) →
      (∀ a ∈ ts, ∀ b ∈ ts, b - 60 < a) →
      (flood_run uid st ts).1 = List.replicate ts.length true ∧
      (flood_run uid st ts).2.flood uid = st.flood uid ++ ts := by
  intro ts
  induction ts with
  | nil =>
    intro st _ _ _
    exact ⟨rfl, by simp [flood_run]⟩
  | cons t ts ih =>
    intro st h1 h2 h3
    have hkeep : inWindow 60 t (st.flood uid) = st.flood uid := by
      apply List.filter_eq_self.2
      intro x hx
      simpa using h2 x hx t (by simp)
    have h1' : (st.flood uid).length + (ts.length + 1)
        ≤ max_messages_per_minute := by
      simpa using h1
    have hlt : ¬ max_messages_per_minute
        ≤ (inWindow 60 t (st.flood uid)).length := by
      rw [hkeep]
      omega
    have hstep : check_flood_protection t st uid
        = (true,
          { st with flood := upd st.flood uid (st.flood uid ++ [t]) }) := by
      simp [check_flood_protection, hlt, hkeep]
      omega
    have hfl' : ({ st with
        flood := upd st.flood uid (st.flood uid ++ [t]) } : SecState).flood
          uid = st.flood uid ++ [t] := by
      show upd st.flood uid (st.flood uid ++ [t]) uid = _
      exact upd_self _ _ _
    obtain ⟨ihr, ihs⟩ := ih
      { st with flood := upd st.flood uid (st.flood uid ++ [t]) }
      (by
        rw [hfl', List.length_append, List.length_singleton]
        omega)
      (by
        rw [hfl']
        intro x hx t' ht'
        rcases List.mem_append.1 hx with hx1 | hx2
        · exact h2 x hx1 t' (List.mem_cons_of_mem _ ht')
        · rw [List.mem_singleton] at hx2
          rw [hx2]
          exact h3 t (List.mem_cons_self _ _) t'
            (List.mem_cons_of_mem _ ht'))
      (by
        intro a ha b hb
        exact h3 a (List.mem_cons_of_mem _ ha) b (List.mem_cons_of_mem _ hb))
    have hrun : flood_run uid st (t :: ts)
        = ((check_flood_protection t st uid).1
            :: (flood_run uid (check_flood_protection t st uid).2 ts).1,
          (flood_run uid (check_flood_protection t st uid).2 ts).2) := rfl
    rw [hrun, hstep]
    constructor
    · show true :: _ = _
      rw [ihr]
      rfl
    · show (flood_run uid _ ts).2.flood uid = _
      rw [ihs, hfl', List.append_assoc]
      rfl

/-- C7: starting from an empty flood history, ten calls to
`check_flood_protection` within one minute of each other are all admitted,
an eleventh call still within one minute of all of them is denied, and a
later call made more than one minute after every recorded event is admitted
again. -/
theorem c7_flood_ten_then_deny (st : SecState) (uid : Nat) (ts : List Int)
    (t11 T : Int)
    (h0 : st.flood uid = [])
    (hlen : ts.length = 10)
    (hpair : ∀ a ∈ ts, ∀ b ∈ ts, b - 60 < a)
    (h11 : ∀ a ∈ ts, t11 - 60 < a)
    (hT : ∀ a ∈ ts, a + 60 < T) :
    (flood_run uid st ts).1 = List.replicate 10 true ∧
    (check_flood_protection t11 (flood_run uid st ts).2 uid).1 = false ∧
    (check_flood_protection T
        (check_flood_protection t11 (flood_run uid st ts).2 uid).2 uid).1
      = true := by
  obtain ⟨hres, hstate⟩ := flood_run_all_admitted uid ts st
    (by rw [h0, hlen]; decide)
    (by rw [h0]; intro x hx; exact absurd hx (List.not_mem_nil x))
    hpair
  rw [h0, List.nil_append] at hstate
  have hkeep : inWindow 60 t11 ((flood_run uid st ts).2.flood uid) = ts := by
    rw [hstate]
    apply List.filter_eq_self.2
    intro a ha
    simpa using h11 a ha
  have hge : max_messages_per_minute ≤ ts.length := by
    rw [hlen]
    decide
  have hden : check_flood_protection t11 (flood_run uid st ts).2 uid
      = (false, { (flood_run uid st ts).2 with
          flood := upd (flood_run uid st ts).2.flood uid ts }) := by
    simp [check_flood_protection, hkeep, hge]
  have hfl11 : (check_flood_protection t11 (flood_run uid st ts).2
      uid).2.flood uid = ts := by
    rw [hden]
    show upd (flood_run uid st ts).2.flood uid ts uid = ts
    exact upd_self _ _ _
  have hdrop : inWindow 60 T ts = [] := by
    apply List.filter_eq_nil_iff.2
    intro a ha
    have h := hT a ha
    simp only [decide_eq_true_eq, not_lt]
    omega
  refine ⟨by rw [hres, hlen], ?_, ?_⟩
  · rw [hden]
  · have hmain : ∀ S : SecState, S.flood uid = ts →
        (check_flood_protection T S uid).1 = true := by
      intro S hs
      simp [check_flood_protection, hs, hdrop, max_messages_per_minute]
    exact hmain _ hfl11

/-- Witness for C7: ten calls at time `0`, an eleventh at time `0`, and a
final call at time `61`. -/
theorem c7_flood_ten_then_deny_witness :
    ((⟨fun _ => false, fun _ => [], fun _ => []⟩ : SecState).flood 1 = [] ∧
      (List.replicate 10 (0 : Int)).length = 10) ∧
    ((flood_run 1 ⟨fun _ => false, fun _ => [], fun _ => []⟩
        (List.replicate 10 (0 : Int))).1 = List.replicate 10 true ∧
      (check_flood_protection 0
        (flood_run 1 ⟨fun _ => false, fun _ => [], fun _ => []⟩
          (List.replicate 10 (0 : Int))).2 1).1 = false ∧
      (check_flood_protection 61
        (check_flood_protection 0
          (flood_run 1 ⟨fun _ => false, fun _ => [], fun _ => []⟩
            (List.replicate 10 (0 : Int))).2 1).2 1).1 = true) :=
  ⟨⟨rfl, rfl⟩,
    c7_flood_ten_then_deny ⟨fun _ => false, fun _ => [], fun _ => []⟩ 1
      (List.replicate 10 0) 0 61 rfl rfl (by decide) (by decide) (by decide)⟩

/-- C10: the window filter retains exactly the events strictly newer than
`now - window`; in particular, on a history holding one event exactly at
the cutoff and one event one unit inside, the boundary event is excluded
and the inner one kept, and `get_remaining_requests` therefore charges for
exactly one event. -/
theorem c10_window_boundary (maxRequests : Nat) (window now : Int)
    (st : RLState) (uid : Nat)
    (hb : st uid = [now - window, now - window + 1]) :
    (∀ (l : List Int) (t : Int),
      t ∈ inWindow window now l ↔ t ∈ l ∧ now - window < t) ∧
    inWindow window now (st uid) = [now - window + 1] ∧
    (get_remaining_requests maxRequests window now st uid).1
      = max 0 ((maxRequests : Int) - 1) ∧
    (check_rate_limit maxRequests window now st uid).2 uid
      = (if maxRequests ≤ 1 then [now - window + 1]
        else [now - window + 1, now]) := by
  have hfil : inWindow window now (st uid) = [now - window + 1] := by
    rw [hb]
    simp [inWindow, lt_irrefl]
  refine ⟨mem_inWindow window now, hfil, ?_, ?_⟩
  · simp [get_remaining_requests, hfil]
  · by_cases hc : maxRequests ≤ 1 <;>
      simp [check_rate_limit, hfil, hc, upd_self]

/-- Witness for C10 at `now = 100`, `window = 10`: the stored events are
`90` (exactly at the cutoff, excluded) and `91` (one unit inside, kept). -/
theorem c10_window_boundary_witness :
    (∀ (l : List Int) (t : Int),
      t ∈ inWindow 10 100 l ↔ t ∈ l ∧ 100 - 10 < t) ∧
    inWindow 10 100 ((upd (fun _ => []) 1 [90, 91]) 1) = [100 - 10 + 1] ∧
    (get_remaining_requests 20 10 100 (upd (fun _ => []) 1 [90, 91]) 1).1
      = max 0 ((20 : Int) - 1) ∧
    (check_rate_limit 20 10 100 (upd (fun _ => []) 1 [90, 91]) 1).2 1
      = (if (20 : Nat) ≤ 1 then [100 - 10 + 1]
        else [100 - 10 + 1, 100]) :=
  c10_window_boundary 20 10 100 (upd (fun _ => []) 1 [90, 91]) 1 (by decide)

/-- C8 counterexample: `"a\tb"` passes `validate_location_input` — the
code's class accepts the tab through `\s` — yet a tab is not among the
characters the claim enumerates (letters, digits, spaces, hyphens, periods,
commas, parentheses), so the claimed "true iff only those characters"
equivalence fails at this input. -/
theorem c8_counterexample :
    validate_location_input "a\tb".toList = true ∧
    ¬ ∀ c ∈ "a\tb".toList, specLocationChar c = true := by
  constructor
  · decide
  · decide

/-- C8 amended: `validate_location_input` rejects empty or whitespace-only
input, over-length (>100) input, and input matching any malicious pattern,
and otherwise returns `true` iff every character is in the code's whitelist
class — letters, digits, whitespace characters (`\s`, not just the plain
space), hyphens, periods, commas, parentheses; the spec's three examples
hold. -/
theorem c8_validate_characterization (s : List Char) :
    (validate_location_input s = true ↔
      ((stripWs s).length ≠ 0 ∧ s.length ≤ 100 ∧
        (∀ m ∈ compiled_patterns, reSearch m s = false) ∧
        ∀ c ∈ s, isValidLocChar c = true)) ∧
    validate_location_input "New York, NY".toList = true ∧
    validate_location_input "<img onerror=x>".toList = false ∧
    validate_location_input "".toList = false := by
  refine ⟨?_, by decide, by decide, by decide⟩
  rw [validate_location_input]
  split_ifs with hA hB hC hD
  · simp only [Bool.false_eq_true, false_iff]
    rintro ⟨hs1, -, -, -⟩
    simp only [Bool.or_eq_true, decide_eq_true_eq] at hA
    rcases hA with h | h
    · rw [h] at hs1
      exact hs1 rfl
    · exact hs1 h
  · simp only [Bool.false_eq_true, false_iff]
    rintro ⟨-, hs2, -, -⟩
    simp only [decide_eq_true_eq] at hB
    omega
  · simp only [Bool.false_eq_true, false_iff]
    rintro ⟨-, -, hs3, -⟩
    rw [List.any_eq_true] at hC
    obtain ⟨m, hm, hsearch⟩ := hC
    rw [hs3 m hm] at hsearch
    exact Bool.false_ne_true hsearch
  · simp only [true_iff]
    obtain ⟨hne, hall⟩ := (anchoredClassMatch_iff s).1 hD
    simp only [Bool.or_eq_true, decide_eq_true_eq, not_or] at hA
    refine ⟨hA.2, ?_, ?_, hall⟩
    · simp only [decide_eq_true_eq] at hB
      omega
    · intro m hm
      by_contra hmm
      apply hC
      rw [List.any_eq_true]
      exact ⟨m, hm, by
        cases h : reSearch m s
        · exact absurd h hmm
        · rfl⟩
  · simp only [Bool.false_eq_true, false_iff]
    rintro ⟨hs1, -, -, hall⟩
    apply hD
    rw [anchoredClassMatch_iff]
    refine ⟨?_, hall⟩
    intro hnil
    rw [hnil] at hs1
    exact hs1 rfl

/-- C9: `sanitize_input` is the composition of the three phases — strip
every match of every malicious pattern (sequentially, in source order),
collapse whitespace runs to single spaces and trim, truncate to 1000
characters with an ellipsis marker — and on the spec's example the script
tag is removed entirely: `sanitize("<script>alert(1)</script>hello") =
"hello"`. -/
theorem c9_sanitize_phases (text : List Char) :
    sanitize_input text
      = truncate1000 (stripWs (collapseWs (remove_malicious text))) ∧
    sanitize_input "<script>alert(1)</script>hello".toList
      = "hello".toList := by
  constructor
  · by_cases h : text = []
    · rw [h]
      rfl
    · rw [sanitize_input, if_neg h]
  · decide

/-- C3 counterexample: with fresh security and rate-limiter state, the text
`"???"` fails location validation (outcome `invalidFormat`), yet the rate
limiter's stored history for the user has grown from `[]` to `[0]` — the
rate-limit check ran *before* validation and consumed a slot, contradicting
the claimed permissions → validation → rate-limit order for text
messages. -/
theorem c3_counterexample :
    (text_handler 99 20 86400 0
      ⟨fun _ => false, fun _ => [], fun _ => []⟩ (fun _ => []) 1
      "???".toList).1 = HandlerOutcome.invalidFormat ∧
    (text_handler 99 20 86400 0
      ⟨fun _ => false, fun _ => [], fun _ => []⟩ (fun _ => []) 1
      "???".toList).2.2 1 = [0] := by
  constructor
  · decide
  · decide

/-- C3 amended: `location_handler` does check in the order permissions →
coordinate validation → rate limit, so invalid coordinates leave the rate
limiter untouched; but `text_handler` checks the rate limit *before* input
validation, so a text message that fails location validation has already
consumed a rate-limit slot: its stored history afterwards is the pruned
old history with `now` appended. -/
theorem c3_handler_order (adminId maxRequests : Nat) (window now : Int)
    (sec : SecState) (rl : RLState) (uid : Nat) (raw : List Char)
    (hperm : (check_user_permissions adminId now sec uid
      "text_message".toList).1 = true)
    (hperm2 : (check_user_permissions adminId now sec uid
      "location_message".toList).1 = true)
    (hbtn1 : stripWs raw ≠ "💝 Donate".toList)
    (hbtn2 : stripWs raw ≠ "ℹ️ Help".toList)
    (hrate : (inWindow window now (rl uid)).length < maxRequests)
    (hval : validate_location_input (sanitize_input (stripWs raw))
      = false) :
    (text_handler adminId maxRequests window now sec rl uid raw).1
      = HandlerOutcome.invalidFormat ∧
    (text_handler adminId maxRequests window now sec rl uid raw).2.2 uid
      = inWindow window now (rl uid) ++ [now] ∧
    ∀ (lat lon : ℚ), validate_coordinates lat lon = false →
      (location_handler adminId maxRequests window now sec rl uid lat
        lon).1 = HandlerOutcome.invalidCoords ∧
      (location_handler adminId maxRequests window now sec rl uid lat
        lon).2.2 = rl := by
  have hnot : ¬ maxRequests ≤ (inWindow window now (rl uid)).length :=
    not_le.mpr hrate
  have hr : check_rate_limit maxRequests window now rl uid
      = (true, upd rl uid (inWindow window now (rl uid) ++ [now])) := by
    simp [check_rate_limit, hnot]
  simp at hperm hperm2 hbtn1 hbtn2
  refine ⟨?_, ?_, ?_⟩
  · simp [text_handler, hperm, hbtn1, hbtn2, hr, hval]
  · simp [text_handler, hperm, hbtn1, hbtn2, hr, hval, upd_self]
  · intro lat lon hco
    constructor <;> simp [location_handler, hperm2, hco]

/-- Witness for the amended C3 at fresh states and the invalid text
`"???"`. -/
theorem c3_handler_order_witness :
    ((check_user_permissions 99 0
        ⟨fun _ => false, fun _ => [], fun _ => []⟩ 1
        "text_message".toList).1 = true ∧
      (check_user_permissions 99 0
        ⟨fun _ => false, fun _ => [], fun _ => []⟩ 1
        "location_message".toList).1 = true ∧
      stripWs "???".toList ≠ "💝 Donate".toList ∧
      stripWs "???".toList ≠ "ℹ️ Help".toList ∧
      (inWindow 86400 0 ((fun _ => ([] : List Int)) 1)).length < 20 ∧
      validate_location_input (sanitize_input (stripWs "???".toList))
        = false) ∧
    ((text_handler 99 20 86400 0
        ⟨fun _ => false, fun _ => [], fun _ => []⟩ (fun _ => []) 1
        "???".toList).1 = HandlerOutcome.invalidFormat ∧
      (text_handler 99 20 86400 0
        ⟨fun _ => false, fun _ => [], fun _ => []⟩ (fun _ => []) 1
        "???".toList).2.2 1
        = inWindow 86400 0 ((fun _ => ([] : List Int)) 1) ++ [0] ∧
      ∀ (lat lon : ℚ), validate_coordinates lat lon = false →
        (location_handler 99 20 86400 0
          ⟨fun _ => false, fun _ => [], fun _ => []⟩ (fun _ => []) 1 lat
          lon).1 = HandlerOutcome.invalidCoords ∧
        (location_handler 99 20 86400 0
          ⟨fun _ => false, fun _ => [], fun _ => []⟩ (fun _ => []) 1 lat
          lon).2.2 = (fun _ => [])) :=
  ⟨⟨by decide, by decide, by decide, by decide, by decide, by decide⟩,
    c3_handler_order 99 20 86400 0
      ⟨fun _ => false, fun _ => [], fun _ => []⟩ (fun _ => []) 1
      "???".toList (by decide) (by decide) (by decide) (by decide)
      (by decide) (by decide)⟩

end WeatherBot
